import Mathlib

/-!
Verification of the LockMouseToMonitor confinement logic (src/main.rs).

The embedding models the pure geometry helpers (`point_in_rect`,
`at_rect_edge`), the startup selection resolver, and the per-tick body of
the polling loop as a function from the mutable loop state plus the
polled platform inputs to the next state and the list of clip commands
issued to the platform during that tick.
-/

namespace LockMouse

/-- Mirror of winapi RECT as used by the program (left/top/right/bottom,
right and bottom exclusive). Coordinates are modelled as mathematical
integers; monitor coordinates are far from the i32 boundaries. -/
structure Rect where
  left : Int
  top : Int
  right : Int
  bottom : Int
  deriving DecidableEq, Repr

/-- Mirror of winapi POINT. -/
structure Point where
  x : Int
  y : Int
  deriving DecidableEq, Repr

/-- Source `fn point_in_rect(pt: &POINT, rc: &RECT) -> bool` (main.rs:76-78):
`pt.x >= rc.left && pt.x < rc.right && pt.y >= rc.top && pt.y < rc.bottom`. -/
def point_in_rect (pt : Point) (rc : Rect) : Bool :=
  decide (pt.x ≥ rc.left) && decide (pt.x < rc.right) &&
  decide (pt.y ≥ rc.top) && decide (pt.y < rc.bottom)

/-- Source `fn at_rect_edge(pt: &POINT, rc: &RECT) -> bool` (main.rs:80-83):
a 1-pixel margin around each of the four sides counts as the edge. -/
def at_rect_edge (pt : Point) (rc : Rect) : Bool :=
  decide (pt.x ≤ rc.left + 1) || decide (pt.x ≥ rc.right - 1) ||
  decide (pt.y ≤ rc.top + 1) || decide (pt.y ≥ rc.bottom - 1)

/-- The four-field inequality test of the F11 branch (main.rs:208-209). -/
def rects_differ (a b : Rect) : Bool :=
  decide (a.left ≠ b.left) || decide (a.top ≠ b.top) ||
  decide (a.right ≠ b.right) || decide (a.bottom ≠ b.bottom)

/-- The mutable state of the polling loop (main.rs:136-139):
`prev_ctrl`, `release_on_exit` (the pending-release flag), `clipped`,
`current_rect`. -/
structure LoopState where
  prev_ctrl : Bool
  release_on_exit : Bool
  clipped : Bool
  current_rect : Option Rect
  deriving DecidableEq, Repr

/-- The platform observations one tick polls: the `GetCursorPos` result,
the three key states, and the `get_monitor_rect_for_point` result used
by the F11 branch. -/
structure TickInput where
  cursor : Option Point
  ctrl_pressed : Bool
  lalt_pressed : Bool
  f11_pressed : Bool
  monitor_at : Option Rect
  deriving DecidableEq, Repr

/-- A clip command issued to the platform: `ClipCursor(&rc)` or
`ClipCursor(ptr::null())`. -/
inductive ClipCmd where
  | set (rc : Rect)
  | clear
  deriving DecidableEq, Repr

/-- Edge-release / re-lock block (main.rs:189-201), given the `clipped`
and (already key-updated) `release_on_exit` values and the active rect.
Returns the new `clipped`, new `release_on_exit`, and commands issued. -/
def step_release_relock (clipped rel : Bool) (pt : Point) (rc : Rect) :
    Bool × Bool × List ClipCmd :=
  if clipped && rel && at_rect_edge pt rc then
    (false, rel, [ClipCmd.clear])
  else if !clipped && point_in_rect pt rc then
    (true, false, [ClipCmd.set rc])
  else
    (clipped, rel, [])

/-- Body of one loop iteration once `GetCursorPos` succeeded
(main.rs:167-218): defensive reapply, release-key rising edge, edge
release / re-lock, F11 reassignment, in the source order. -/
def tickSome (s : LoopState) (pt : Point) (ctrl lalt f11 : Bool)
    (monAt : Option Rect) : LoopState × List ClipCmd :=
  let rk := ctrl || lalt
  let cmds1 : List ClipCmd :=
    if s.clipped && !s.release_on_exit then
      match s.current_rect with
      | some rc => [ClipCmd.set rc]
      | none => []
    else []
  let rel1 := if rk && !s.prev_ctrl then true else s.release_on_exit
  match s.current_rect with
  | none =>
      ({ prev_ctrl := rk, release_on_exit := rel1, clipped := s.clipped,
         current_rect := none }, cmds1)
  | some rc =>
      let r5 := step_release_relock s.clipped rel1 pt rc
      if f11 then
        match monAt with
        | some new_rc =>
            if rects_differ new_rc rc then
              ({ prev_ctrl := rk, release_on_exit := false, clipped := true,
                 current_rect := some new_rc },
               cmds1 ++ r5.2.2 ++ [ClipCmd.set new_rc])
            else
              ({ prev_ctrl := rk, release_on_exit := r5.2.1, clipped := r5.1,
                 current_rect := some rc }, cmds1 ++ r5.2.2)
        | none =>
            ({ prev_ctrl := rk, release_on_exit := r5.2.1, clipped := r5.1,
               current_rect := some rc }, cmds1 ++ r5.2.2)
      else
        ({ prev_ctrl := rk, release_on_exit := r5.2.1, clipped := r5.1,
           current_rect := some rc }, cmds1 ++ r5.2.2)

/-- One full tick of the polling loop (main.rs:157-221). When
`GetCursorPos` fails the tick is skipped via `continue` (main.rs:163-165). -/
def tick (s : LoopState) (inp : TickInput) : LoopState × List ClipCmd :=
  match inp.cursor with
  | none => (s, [])
  | some pt => tickSome s pt inp.ctrl_pressed inp.lalt_pressed
      inp.f11_pressed inp.monitor_at

/-- Rust `str::parse::<usize>` on an already-trimmed line: optional
leading plus sign, then one or more ASCII digits, value below 2^64. -/
def parse_usize (s : String) : Option Nat :=
  let ds := match s.toList with
    | '+' :: rest => rest
    | cs => cs
  if ds = [] then none
  else if ds.all (fun c => c.isDigit) then
    let n := ds.foldl (fun acc c => acc * 10 + (c.toNat - '0'.toNat)) 0
    if n < 2 ^ 64 then some n else none
  else none

/-- The selection logic of main.rs:120-134: empty input takes the
current-monitor index (always in range when produced by the program,
since it comes from a positional search), otherwise a 1-based in-range
integer selects that catalog entry, anything else is an invalid
selection (`none`, which makes the program abort). -/
def resolve_selection (input : String) (monitors : List Rect)
    (currentIdx : Option Nat) : Option Rect :=
  if input = "" then
    currentIdx.bind (fun idx => monitors.get? idx)
  else
    match parse_usize input with
    | some n =>
        if n > 0 && n ≤ monitors.length then monitors.get? (n - 1) else none
    | none => none

/-- Source `get_current_monitor_index` (main.rs:50-59): cursor query,
then the position of the first catalog rect containing the point. -/
def current_index (monitors : List Rect) (cursor0 : Option Point) :
    Option Nat :=
  cursor0.bind (fun pt => monitors.findIdx? (fun m => point_in_rect pt m))

/-- Startup (main.rs:92-155) up to loop entry: empty catalog aborts,
resolver failure aborts, then the initial `ClipCursor` attempt. If the
clip call succeeds the loop starts clipped with the rect recorded; if
it fails the loop is still entered with the zero-initialised state
(main.rs:142-151 has no else-return on clip failure). `none` means the
loop is never entered. -/
def startup (monitors : List Rect) (cursor0 : Option Point)
    (input : String) (clipSuccess : Bool) : Option LoopState :=
  if monitors = [] then none
  else
    match resolve_selection input monitors (current_index monitors cursor0) with
    | none => none
    | some rc =>
        if clipSuccess then
          some { prev_ctrl := false, release_on_exit := false,
                 clipped := true, current_rect := some rc }
        else
          some { prev_ctrl := false, release_on_exit := false,
                 clipped := false, current_rect := none }

/-- States reachable from `s0` by repeated poll ticks with arbitrary
platform inputs. -/
inductive Reachable (s0 : LoopState) : LoopState → Prop
  | refl : Reachable s0 s0
  | step (s : LoopState) (inp : TickInput) :
      Reachable s0 s → Reachable s0 (tick s inp).1

/-- Claim C7: the point-in-rectangle predicate holds iff
`left ≤ x < right` and `top ≤ y < bottom`, half-open on all four
sides. -/
theorem point_in_rect_iff (pt : Point) (rc : Rect) :
    point_in_rect pt rc = true ↔
      (rc.left ≤ pt.x ∧ pt.x < rc.right ∧ rc.top ≤ pt.y ∧ pt.y < rc.bottom) := by
  simp [point_in_rect, and_assoc, ge_iff_le]

/-- Claim C8: the at-edge predicate holds iff the point is within 1 unit
of one of the four boundary lines, via the documented margins
`left+1`, `right-1`, `top+1`, `bottom-1`. -/
theorem at_rect_edge_iff (pt : Point) (rc : Rect) :
    at_rect_edge pt rc = true ↔
      (pt.x ≤ rc.left + 1 ∨ pt.x ≥ rc.right - 1 ∨
       pt.y ≤ rc.top + 1 ∨ pt.y ≥ rc.bottom - 1) := by
  simp [at_rect_edge, or_assoc]

/-- Claim C4: when the platform fails to report a cursor position, the
whole tick is skipped: the state is returned unchanged in every field
and no clip command is issued. -/
theorem skip_tick_on_cursor_failure (s : LoopState) (inp : TickInput)
    (h : inp.cursor = none) : tick s inp = (s, []) := by
  simp [tick, h]

/-- Witness for C4 at a concrete state and input. -/
theorem skip_tick_on_cursor_failure_witness :
    tick ⟨true, true, true, some ⟨0, 0, 1920, 1080⟩⟩
      ⟨none, true, true, true, some ⟨1920, 0, 3840, 1080⟩⟩ =
    (⟨true, true, true, some ⟨0, 0, 1920, 1080⟩⟩, []) :=
  skip_tick_on_cursor_failure _ _ rfl

/-- Claim C3: the selection resolver returns, for empty input, the
geometry at the current index (none when that index is absent); for an
integer n with 1 ≤ n ≤ catalog length, the geometry at index n-1; and
none for every other input, including inputs parsing to 0 or beyond
the catalog length and inputs that do not parse at all. -/
theorem resolver_spec (input : String) (mons : List Rect) (cidx : Option Nat) :
    (input = "" →
      resolve_selection input mons cidx = cidx.bind (fun i => mons.get? i)) ∧
    (∀ n, input ≠ "" → parse_usize input = some n → 1 ≤ n → n ≤ mons.length →
      resolve_selection input mons cidx = mons.get? (n - 1)) ∧
    (input ≠ "" → (∀ n, parse_usize input = some n → n = 0 ∨ mons.length < n) →
      resolve_selection input mons cidx = none) := by
  refine ⟨fun he => by simp [resolve_selection, he], ?_, ?_⟩
  · intro n hne hp h1 hn
    simp only [resolve_selection, if_neg hne, hp]
    have : n > 0 ∧ n ≤ mons.length := ⟨h1, hn⟩
    simp [this.1, this.2]
  · intro hne hbad
    simp only [resolve_selection, if_neg hne]
    cases hp : parse_usize input with
    | none => rfl
    | some n =>
      rcases hbad n hp with h0 | hgt
      · simp [h0]
      · simp [Nat.not_le_of_lt hgt, Nat.lt_irrefl]

/-- Witness for C3: input "2" with a two-monitor catalog selects the
second entry. -/
theorem resolver_spec_witness :
    resolve_selection "2" [⟨0, 0, 1920, 1080⟩, ⟨1920, 0, 3840, 1080⟩] none =
      some ⟨1920, 0, 3840, 1080⟩ := by
  have h := (resolver_spec "2"
    [⟨0, 0, 1920, 1080⟩, ⟨1920, 0, 3840, 1080⟩] none).2.1
    2 (by decide) (by decide) (by decide) (by decide)
  simpa using h

/-- Claim C5: with `isClipped = false`, `activeRect` set, and the cursor
inside the rect under half-open containment, the tick re-locks: it ends
with `isClipped = true`, `pendingRelease = false`, and a clip command
to the rect among the tick's issued commands. -/
theorem relock_on_return (s : LoopState) (inp : TickInput) (pt : Point) (rc : Rect)
    (hcur : inp.cursor = some pt) (hrect : s.current_rect = some rc)
    (hclip : s.clipped = false) (hin : point_in_rect pt rc = true) :
    (tick s inp).1.clipped = true ∧ (tick s inp).1.release_on_exit = false ∧
    ClipCmd.set rc ∈ (tick s inp).2 := by
  simp only [tick, hcur, tickSome, hrect, hclip, step_release_relock, hin,
    Bool.false_and, Bool.not_false, Bool.true_and, if_false, if_true]
  cases hf : inp.f11_pressed <;> cases hm : inp.monitor_at <;>
    simp_all <;> split <;> simp_all

/-- Witness for C5 at a concrete released state with the cursor back in
the interior. -/
theorem relock_on_return_witness :
    (tick ⟨false, true, false, some ⟨0, 0, 1920, 1080⟩⟩
      ⟨some ⟨500, 500⟩, false, false, false, none⟩).1.clipped = true ∧
    (tick ⟨false, true, false, some ⟨0, 0, 1920, 1080⟩⟩
      ⟨some ⟨500, 500⟩, false, false, false, none⟩).1.release_on_exit = false ∧
    ClipCmd.set ⟨0, 0, 1920, 1080⟩ ∈
      (tick ⟨false, true, false, some ⟨0, 0, 1920, 1080⟩⟩
        ⟨some ⟨500, 500⟩, false, false, false, none⟩).2 :=
  relock_on_return _ _ _ _ rfl rfl rfl (by decide)

/-- Claim C1: starting from a clipped state, a tick lowers `isClipped`
only when the cursor is within the 1-unit edge margin (and then the
pending-release flag is set in the resulting state and a clip-clear
command is issued); when the cursor is away from the edge margin the
state stays clipped and no clear command is issued, so a release-key
press alone never lifts confinement. -/
theorem release_only_at_edge (s : LoopState) (inp : TickInput) (pt : Point) (rc : Rect)
    (hcur : inp.cursor = some pt) (hrect : s.current_rect = some rc)
    (hclip : s.clipped = true) :
    ((tick s inp).1.clipped = false →
      at_rect_edge pt rc = true ∧ (tick s inp).1.release_on_exit = true ∧
      ClipCmd.clear ∈ (tick s inp).2) ∧
    (at_rect_edge pt rc = false →
      (tick s inp).1.clipped = true ∧ ClipCmd.clear ∉ (tick s inp).2) := by
  simp only [tick, hcur, tickSome, hrect, hclip, step_release_relock,
    Bool.true_and, Bool.not_true, Bool.false_and, if_false]
  cases he : at_rect_edge pt rc <;>
    cases hrel : (if (inp.ctrl_pressed || inp.lalt_pressed) && !s.prev_ctrl then true
      else s.release_on_exit) <;>
  cases hf : inp.f11_pressed <;> cases hm : inp.monitor_at <;>
    simp_all <;> split <;> simp_all

/-- Witness for C1: release key pressed with the cursor in the interior;
confinement is kept. -/
theorem release_only_at_edge_witness :
    ((tick ⟨false, false, true, some ⟨0, 0, 1920, 1080⟩⟩
        ⟨some ⟨500, 500⟩, true, false, false, none⟩).1.clipped = false →
      at_rect_edge ⟨500, 500⟩ ⟨0, 0, 1920, 1080⟩ = true ∧
      (tick ⟨false, false, true, some ⟨0, 0, 1920, 1080⟩⟩
        ⟨some ⟨500, 500⟩, true, false, false, none⟩).1.release_on_exit = true ∧
      ClipCmd.clear ∈ (tick ⟨false, false, true, some ⟨0, 0, 1920, 1080⟩⟩
        ⟨some ⟨500, 500⟩, true, false, false, none⟩).2) ∧
    (at_rect_edge ⟨500, 500⟩ ⟨0, 0, 1920, 1080⟩ = false →
      (tick ⟨false, false, true, some ⟨0, 0, 1920, 1080⟩⟩
        ⟨some ⟨500, 500⟩, true, false, false, none⟩).1.clipped = true ∧
      ClipCmd.clear ∉ (tick ⟨false, false, true, some ⟨0, 0, 1920, 1080⟩⟩
        ⟨some ⟨500, 500⟩, true, false, false, none⟩).2) :=
  release_only_at_edge _ _ _ _ rfl rfl rfl

/-- Claim C6: with the reassignment key down and the monitor rect under
the cursor differing from the active rect in at least one of its four
edges, the tick replaces the active rect, applies the clip, sets
`isClipped`, clears `pendingRelease`; repeating the very same tick on
the resulting state changes nothing beyond the defensive reapply
command (level-triggered idempotence). -/
theorem reassign_level_triggered (s : LoopState) (inp : TickInput) (pt : Point)
    (cur new_rc : Rect)
    (hcur : inp.cursor = some pt) (hrect : s.current_rect = some cur)
    (hf : inp.f11_pressed = true) (hmon : inp.monitor_at = some new_rc)
    (hne : rects_differ new_rc cur = true) :
    ((tick s inp).1.current_rect = some new_rc ∧ (tick s inp).1.clipped = true ∧
     (tick s inp).1.release_on_exit = false ∧
     ClipCmd.set new_rc ∈ (tick s inp).2) ∧
    tick (tick s inp).1 inp = ((tick s inp).1, [ClipCmd.set new_rc]) := by
  have hself : rects_differ new_rc new_rc = false := by simp [rects_differ]
  simp only [tick, hcur, tickSome, hrect, hf, hmon, hne, if_true]
  constructor
  · simp
  · cases hc : inp.ctrl_pressed <;> cases hl : inp.lalt_pressed <;>
      simp [step_release_relock, hself, hc, hl]

/-- Witness for C6 at a concrete two-monitor configuration. -/
theorem reassign_level_triggered_witness :
    ((tick ⟨false, false, true, some ⟨0, 0, 1920, 1080⟩⟩
        ⟨some ⟨2000, 500⟩, false, false, true, some ⟨1920, 0, 3840, 1080⟩⟩).1.current_rect =
          some ⟨1920, 0, 3840, 1080⟩ ∧
     (tick ⟨false, false, true, some ⟨0, 0, 1920, 1080⟩⟩
        ⟨some ⟨2000, 500⟩, false, false, true, some ⟨1920, 0, 3840, 1080⟩⟩).1.clipped = true ∧
     (tick ⟨false, false, true, some ⟨0, 0, 1920, 1080⟩⟩
        ⟨some ⟨2000, 500⟩, false, false, true, some ⟨1920, 0, 3840, 1080⟩⟩).1.release_on_exit = false ∧
     ClipCmd.set ⟨1920, 0, 3840, 1080⟩ ∈
       (tick ⟨false, false, true, some ⟨0, 0, 1920, 1080⟩⟩
         ⟨some ⟨2000, 500⟩, false, false, true, some ⟨1920, 0, 3840, 1080⟩⟩).2) ∧
    tick (tick ⟨false, false, true, some ⟨0, 0, 1920, 1080⟩⟩
        ⟨some ⟨2000, 500⟩, false, false, true, some ⟨1920, 0, 3840, 1080⟩⟩).1
      ⟨some ⟨2000, 500⟩, false, false, true, some ⟨1920, 0, 3840, 1080⟩⟩ =
    ((tick ⟨false, false, true, some ⟨0, 0, 1920, 1080⟩⟩
        ⟨some ⟨2000, 500⟩, false, false, true, some ⟨1920, 0, 3840, 1080⟩⟩).1,
     [ClipCmd.set ⟨1920, 0, 3840, 1080⟩]) :=
  reassign_level_triggered _ _ _ _ _ rfl rfl rfl rfl (by decide)

/-- Helper for C9: one tick preserves the invariant that an unclipped
state carries the pending-release flag. -/
theorem tick_preserves_released_pending (s : LoopState) (inp : TickInput)
    (h : s.clipped = false → s.release_on_exit = true) :
    (tick s inp).1.clipped = false → (tick s inp).1.release_on_exit = true := by
  cases hcur : inp.cursor with
  | none => simpa [tick, hcur] using h
  | some pt =>
    cases hclip : s.clipped <;> cases hrel : s.release_on_exit <;>
      cases hrect : s.current_rect <;>
      simp_all [tick, tickSome, step_release_relock] <;>
      (repeat' split) <;> simp_all

/-- Helper for C9: a tick lowers the pending-release flag only while
simultaneously ending clipped (re-lock on return or reassignment). -/
theorem pending_cleared_only_on_lock (s : LoopState) (inp : TickInput)
    (hrel : s.release_on_exit = true) :
    (tick s inp).1.release_on_exit = false → (tick s inp).1.clipped = true := by
  cases hcur : inp.cursor with
  | none => simp [tick, hcur, hrel]
  | some pt =>
    cases hclip : s.clipped <;> cases hrect : s.current_rect <;>
      simp_all [tick, tickSome, step_release_relock] <;>
      (repeat' split) <;> simp_all

/-- Claim C9: from a successful initial lock, every reachable state with
`isClipped = false` has `pendingRelease = true`, and a tick clears the
pending-release flag only when it simultaneously leaves the state
clipped. -/
theorem released_state_keeps_pending (rc : Rect) (s : LoopState)
    (h : Reachable ⟨false, false, true, some rc⟩ s) :
    (s.clipped = false → s.release_on_exit = true) ∧
    (∀ inp, s.release_on_exit = true → (tick s inp).1.release_on_exit = false →
      (tick s inp).1.clipped = true) := by
  have hinv : s.clipped = false → s.release_on_exit = true := by
    induction h with
    | refl => intro hc; simp at hc
    | step s' inp hr ih => exact tick_preserves_released_pending s' inp ih
  exact ⟨hinv, fun inp => pending_cleared_only_on_lock s inp⟩

/-- Witness for C9 at the state reached by one releasing tick from the
initial lock. -/
theorem released_state_keeps_pending_witness :
    ((tick ⟨false, false, true, some ⟨0, 0, 1920, 1080⟩⟩
        ⟨some ⟨0, 0⟩, true, false, false, none⟩).1.clipped = false →
      (tick ⟨false, false, true, some ⟨0, 0, 1920, 1080⟩⟩
        ⟨some ⟨0, 0⟩, true, false, false, none⟩).1.release_on_exit = true) ∧
    ((tick ⟨false, false, true, some ⟨0, 0, 1920, 1080⟩⟩
        ⟨some ⟨0, 0⟩, true, false, false, none⟩).1.release_on_exit = true →
      (tick (tick ⟨false, false, true, some ⟨0, 0, 1920, 1080⟩⟩
          ⟨some ⟨0, 0⟩, true, false, false, none⟩).1
        ⟨some ⟨500, 500⟩, false, false, false, none⟩).1.release_on_exit = false →
      (tick (tick ⟨false, false, true, some ⟨0, 0, 1920, 1080⟩⟩
          ⟨some ⟨0, 0⟩, true, false, false, none⟩).1
        ⟨some ⟨500, 500⟩, false, false, false, none⟩).1.clipped = true) :=
  have h := released_state_keeps_pending ⟨0, 0, 1920, 1080⟩ _
    (Reachable.step _ ⟨some ⟨0, 0⟩, true, false, false, none⟩ Reachable.refl)
  ⟨h.1, h.2 ⟨some ⟨500, 500⟩, false, false, false, none⟩⟩

/-- Helper for C10: with no active rect, a tick issues no command,
keeps the rect absent and `clipped` unchanged, and only updates the
key-tracking fields by the release-key rising-edge rule. -/
theorem tick_no_rect (s : LoopState) (inp : TickInput)
    (hrect : s.current_rect = none) :
    (tick s inp).2 = [] ∧ (tick s inp).1.current_rect = none ∧
    (tick s inp).1.clipped = s.clipped ∧
    (tick s inp).1.release_on_exit =
      (s.release_on_exit ||
        (inp.cursor.isSome &&
          ((inp.ctrl_pressed || inp.lalt_pressed) && !s.prev_ctrl))) ∧
    (tick s inp).1.prev_ctrl =
      (if inp.cursor.isSome then inp.ctrl_pressed || inp.lalt_pressed
       else s.prev_ctrl) := by
  cases hcur : inp.cursor with
  | none => simp [tick, hcur, hrect]
  | some pt =>
    cases h1 : (inp.ctrl_pressed || inp.lalt_pressed) && !s.prev_ctrl <;>
      simp_all [tick, tickSome, hrect]

/-- Helper for C10: a loop-entry state with no active rect is the
clip-failure state: unclipped, no pending release, no previous key. -/
theorem startup_rect_none (mons : List Rect) (c0 : Option Point)
    (input : String) (b : Bool) (s0 : LoopState)
    (h : startup mons c0 input b = some s0) (hn : s0.current_rect = none) :
    s0.clipped = false ∧ s0.release_on_exit = false ∧ s0.prev_ctrl = false ∧
    b = false := by
  simp only [startup] at h
  split at h
  · simp at h
  · split at h
    · simp at h
    · split at h <;> (rw [Option.some_inj] at h; subst h) <;> simp_all

/-- Claim C10: when the loop is entered with `activeRect` unset, every
reachable state still has no rect and is unclipped, every tick issues
no clip command, and the only fields a tick can change are the
pending-release flag (set on a release-key rising edge, never cleared)
and the previous-key flag. -/
theorem unset_rect_inert (mons : List Rect) (c0 : Option Point)
    (input : String) (b : Bool) (s0 : LoopState)
    (hstart : startup mons c0 input b = some s0)
    (hrect : s0.current_rect = none) :
    ∀ s, Reachable s0 s → s.current_rect = none ∧ s.clipped = false ∧
      ∀ i, (tick s i).2 = [] ∧ (tick s i).1.current_rect = none ∧
        (tick s i).1.clipped = false ∧
        (tick s i).1.release_on_exit =
          (s.release_on_exit ||
            (i.cursor.isSome &&
              ((i.ctrl_pressed || i.lalt_pressed) && !s.prev_ctrl))) ∧
        (tick s i).1.prev_ctrl =
          (if i.cursor.isSome then i.ctrl_pressed || i.lalt_pressed
           else s.prev_ctrl) := by
  intro s h
  have hb : s.current_rect = none ∧ s.clipped = false := by
    induction h with
    | refl =>
      exact ⟨hrect, (startup_rect_none mons c0 input b s0 hstart hrect).1⟩
    | step s' i hr ih =>
      have t := tick_no_rect s' i ih.1
      exact ⟨t.2.1, by rw [t.2.2.1]; exact ih.2⟩
  refine ⟨hb.1, hb.2, fun i => ?_⟩
  have t := tick_no_rect s i hb.1
  exact ⟨t.1, t.2.1, by rw [t.2.2.1]; exact hb.2,
    t.2.2.2.1, t.2.2.2.2⟩

/-- Witness for C10: the clip-failure loop-entry state stays inert under
a tick carrying a cursor point, pressed keys, and a resolvable
monitor. -/
theorem unset_rect_inert_witness :
    (tick ⟨false, false, false, none⟩
      ⟨some ⟨5, 5⟩, true, false, true, some ⟨1920, 0, 3840, 1080⟩⟩).2 = [] ∧
    (tick ⟨false, false, false, none⟩
      ⟨some ⟨5, 5⟩, true, false, true, some ⟨1920, 0, 3840, 1080⟩⟩).1.current_rect = none ∧
    (tick ⟨false, false, false, none⟩
      ⟨some ⟨5, 5⟩, true, false, true, some ⟨1920, 0, 3840, 1080⟩⟩).1.clipped = false :=
  have h := unset_rect_inert [⟨0, 0, 1920, 1080⟩] none "1" false
    ⟨false, false, false, none⟩ (by decide) rfl
    ⟨false, false, false, none⟩ Reachable.refl
  have hi := h.2.2 ⟨some ⟨5, 5⟩, true, false, true, some ⟨1920, 0, 3840, 1080⟩⟩
  ⟨hi.1, hi.2.1, hi.2.2.1⟩

/-- Counterexample to claim C2 as stated: with one monitor resolved and
selected by input "1", a failing initial clip call still enters the
polling loop, but with `activeRect` unset. -/
theorem loop_entry_rect_counterexample :
    ¬ (∀ (mons : List Rect) (c0 : Option Point) (input : String) (b : Bool)
        (s0 : LoopState), startup mons c0 input b = some s0 →
        s0.current_rect.isSome = true) := by
  intro h
  have := h [⟨0, 0, 1920, 1080⟩] none "1" false
    ⟨false, false, false, none⟩ (by decide)
  simp at this

/-- Claim C2 (amended): the loop is entered with `activeRect` unset
exactly when the initial clip command failed; when it succeeded the
loop starts clipped to the resolved monitor rectangle, and when no
monitor resolves the loop is never entered. -/
theorem loop_entry_rect_amended (mons : List Rect) (c0 : Option Point)
    (input : String) (b : Bool) :
    (∀ s0, startup mons c0 input b = some s0 →
      ((s0.current_rect = none) ↔ b = false) ∧
      (b = true → ∃ rc,
        resolve_selection input mons (current_index mons c0) = some rc ∧
        s0 = ⟨false, false, true, some rc⟩)) ∧
    (resolve_selection input mons (current_index mons c0) = none →
      startup mons c0 input b = none) := by
  constructor
  · intro s0 h
    simp only [startup] at h
    split at h
    · simp at h
    · split at h
      · simp at h
      · rename_i rc hres
        split at h <;> (rw [Option.some_inj] at h; subst h) <;> simp_all
  · intro hres
    simp [startup, hres]

/-- Witness for the amended C2 at a successful one-monitor startup. -/
theorem loop_entry_rect_amended_witness :
    (((⟨false, false, true, some ⟨0, 0, 1920, 1080⟩⟩ : LoopState).current_rect = none) ↔
      true = false) ∧
    (true = true → ∃ rc,
      resolve_selection "1" [⟨0, 0, 1920, 1080⟩]
        (current_index [⟨0, 0, 1920, 1080⟩] none) = some rc ∧
      (⟨false, false, true, some ⟨0, 0, 1920, 1080⟩⟩ : LoopState) =
        ⟨false, false, true, some rc⟩) :=
  (loop_entry_rect_amended [⟨0, 0, 1920, 1080⟩] none "1" true).1 _ (by decide)

end LockMouse
